import Mathlib

/-!
Shallow embedding of `src/bot.py` (Telegram procurement-order bot).

The embedding covers the three core components of the program:

* the access registry `UserManager` (`_parse_user_id`, `_load_users`,
  `is_admin`, `is_allowed`, `reload_users`, `get_admin_ids`);
* the order-conversation state machine (`order_command`,
  `department_selected`, `product_entered`, `quantity_entered`,
  `priority_selected`, `confirm_order`, `cancel_command`,
  `order_in_progress`, `cancel_not_available`) together with the
  handler-dispatch semantics of the hosting framework
  (`ConversationHandler` with the registrations made in `_setup_handlers`);
* the delivery layer (`_send_order_to_admins`, `_send_message_with_retry`).

Conventions: Python `int` identifiers become `Int`; Python `set` becomes
a duplicate-free `List`; the per-user `context.user_data` dict becomes
the `UserData` record (absent key = `none` / `false`); a raised
exception becomes the `Except.error` branch.  The templates of `messages.py` are not part of
the sources, so the order/confirmation templates are modelled from the
specification and flagged as such in their doc comments.
-/

namespace ProcurementBot

/-! ## Models of the Python string primitives

The handlers use `str.strip`, `str.replace`, `str.split`, `int(...)`
and the framework's callback-pattern matching (`^dept_` etc., i.e. a
prefix test).  These are modelled here on the character sequence of the
string, structurally recursive so every definition evaluates. -/

/-- Python `str.strip()` with no argument: remove leading and trailing
whitespace.  (Python strips all Unicode whitespace; the model strips
the ASCII whitespace of `Char.isWhitespace`, which covers every string
this development evaluates.) -/
def strTrim (s : String) : String :=
  ⟨((s.data.dropWhile Char.isWhitespace).reverse.dropWhile Char.isWhitespace).reverse⟩

/-- Does `pat` match at the head of `l`?  (The `^pat` regex test the
framework applies to callback payloads.) -/
def leadMatch : List Char → List Char → Bool
  | [], _ => true
  | _ :: _, [] => false
  | p :: ps, c :: cs => p = c && leadMatch ps cs

/-- The `^pat` pattern test on strings (`re.match`, anchored at the
start). -/
def strStartsWith (s pat : String) : Bool :=
  leadMatch pat.data s.data

/-- If `pat` matches at the head of `l`, the remainder after it. -/
def chopLead : List Char → List Char → Option (List Char)
  | [], l => some l
  | _ :: _, [] => none
  | p :: ps, c :: cs => if p = c then chopLead ps cs else none

/-- One fuelled pass of Python `str.replace(pat, rep)`: scan left to
right, replacing every (non-overlapping) occurrence of `pat`.  Each
step consumes at least one character, so fuel equal to the length of
the scanned list makes the fuel bound unreachable.  (Python treats an
empty `pat` specially; every `replace` in the program uses a non-empty
pattern, for which the `isEmpty` guard is never taken.) -/
def replaceFuel (pat rep : List Char) : Nat → List Char → List Char
  | 0, s => s
  | _ + 1, [] => []
  | fuel + 1, c :: rest =>
    if pat.isEmpty then c :: replaceFuel pat rep fuel rest
    else
      match chopLead pat (c :: rest) with
      | some remainder => rep ++ replaceFuel pat rep fuel remainder
      | none => c :: replaceFuel pat rep fuel rest

/-- Python `str.replace(pat, rep)`: replace every occurrence. -/
def strReplace (s pat rep : String) : String :=
  ⟨replaceFuel pat.data rep.data s.data.length s.data⟩

/-- Everything of `l` before the first `sep`: Python
`s.split(sep)[0]`. -/
def splitHead (sep : Char) (l : List Char) : List Char :=
  l.takeWhile (fun c => c ≠ sep)

/-- The numeric value of a digit run, `none` when a non-digit occurs or
the run is empty. -/
def digitsToNat : List Char → Option Nat
  | [] => none
  | l =>
    l.foldl
      (fun acc c =>
        match acc with
        | none => none
        | some n => if c.isDigit then some (n * 10 + (c.toNat - 48)) else none)
      (some 0)

/-- Python `int(s)` on an already-stripped string, with `ValueError`
mapped to `none`: an optional sign followed by digits.  (Python
additionally accepts underscore digit grouping and Unicode digits,
which nothing in this development exercises.) -/
def pyInt? (s : String) : Option Int :=
  match s.data with
  | [] => none
  | c :: rest =>
    if c = '-' then (digitsToNat rest).map (fun n => -(n : Int))
    else if c = '+' then (digitsToNat rest).map (fun n => (n : Int))
    else (digitsToNat (c :: rest)).map (fun n => (n : Int))

/-! ## Access registry (`UserManager`) -/

/-- Embedding of `UserManager._parse_user_id`: drop everything from the
first `#` on (`split('#')[0]`), strip surrounding whitespace, return
`none` on the empty remainder, otherwise parse as an integer
(`int(...)`, `ValueError` mapped to `none`). -/
def parse_user_id (s : String) : Option Int :=
  let s2 := strTrim ⟨splitHead '#' s.data⟩
  if s2 = "" then none else pyInt? s2

/-- The two identifier sets held by `UserManager` (`self.admins`,
`self.allowed_users`).  A Python `set` is modelled as a
duplicate-free list: `set.add` becomes `List.insert` (add only when
absent) and `|` becomes `List.union`; every set `_load_users` builds is
duplicate-free (`collect_ids_nodup`, `load_users_nodup`). -/
structure UserManager where
  admins : List Int
  allowed_users : List Int
deriving DecidableEq

/-- The outcome of `ConfigParser` reading `users.cfg`: either the read
itself raises, or it yields the key lines of the `ADMINS` and `USERS`
sections (`none` when the section is absent). -/
inductive ConfigInput where
  | readError
  | sections (adminKeys : Option (List String)) (userKeys : Option (List String))

/-- The accumulation loop of `_load_users` over one section: each key is
parsed with `_parse_user_id`; valid identifiers are added to the set,
invalid ones are skipped (with a logged warning). -/
def collect_ids (keys : List String) : List Int :=
  keys.foldl
    (fun acc k =>
      match parse_user_id k with
      | some i => acc.insert i
      | none => acc)
    []

/-- Embedding of `UserManager._load_users`.  A read error propagates;
zero valid administrators raises `ValueError` (before any assignment to
`self`); on success `self.admins` is the parsed admin set and
`self.allowed_users` is the parsed user set union the admin set. -/
def load_users (cfg : ConfigInput) : Except String UserManager :=
  match cfg with
  | .readError => .error "config read error"
  | .sections adminKeys userKeys =>
    let admins := collect_ids (adminKeys.getD [])
    if admins = [] then
      .error "no admins"
    else
      let allowed_users := collect_ids (userKeys.getD [])
      .ok { admins := admins, allowed_users := allowed_users.union admins }

/-- Embedding of `UserManager.is_admin`. -/
def UserManager.is_admin (m : UserManager) (user_id : Int) : Bool :=
  decide (user_id ∈ m.admins)

/-- Embedding of `UserManager.is_allowed`. -/
def UserManager.is_allowed (m : UserManager) (user_id : Int) : Bool :=
  decide (user_id ∈ m.allowed_users)

/-- Embedding of `UserManager.reload_users`: it simply re-runs
`_load_users`, letting any exception propagate to the caller. -/
def reload_users (cfg : ConfigInput) : Except String UserManager :=
  load_users cfg

/-- The registry state in effect after a reload of `m` against `cfg`:
on success the freshly built sets, on failure `self` was never assigned,
so the previous sets remain. -/
def manager_after_reload (m : UserManager) (cfg : ConfigInput) : UserManager :=
  match load_users cfg with
  | .ok m2 => m2
  | .error _ => m

/-- Embedding of `UserManager.get_admin_ids` (returns `self.admins.copy()`). -/
def UserManager.get_admin_ids (m : UserManager) : List Int :=
  m.admins

/-! ## Conversation data model -/

/-- The conversation states: the five members of `OrderState`, plus
`idle` for "no active conversation" (`ConversationHandler.END` / never
entered). -/
inductive ConvState where
  | idle
  | selecting_department
  | entering_product
  | entering_quantity
  | selecting_priority
  | confirming_order
deriving DecidableEq

/-- The per-user `context.user_data` dict.  A key that was never set is
`none` (and `order_in_progress` is `false`, matching the falsy
`dict.get`). -/
structure UserData where
  order_in_progress : Bool
  department : Option String
  product : Option String
  quantity : Option String
  priority : Option String
deriving DecidableEq

/-- `context.user_data` after `clear()` (or before anything was set). -/
def UserData.empty : UserData :=
  { order_in_progress := false, department := none, product := none,
    quantity := none, priority := none }

/-- The submitting Telegram user as read by the handlers:
`from_user.id`, `from_user.full_name`, `from_user.username`. -/
structure UserInfo where
  id : Int
  full_name : String
  username : Option String

/-- The distinct user-facing notifications drawn from `messages.py`
(whose literal texts are not part of the sources); each constructor
stands for one template the handlers send. -/
inductive Msg where
  | access_denied
  | already_in_progress
  | select_department
  | enter_product
  | enter_quantity
  | select_priority
  | confirmation (text : String)
  | order_success
  | order_cancelled
  | cancel_success
  | cancel_not_available
deriving DecidableEq

/-- One outbound transport call made while handling an event: a reply
to the submitting user's chat, or the relayed order text to one
administrator. -/
inductive OutMsg where
  | toUser (m : Msg)
  | toAdmin (admin_id : Int) (text : String)
deriving DecidableEq

/-- The static environment of one event: the loaded registry, the
static catalogs `DEPARTMENTS` and `PRIORITIES` from `messages.py`
(association lists id ↦ display label), the submitting user, and the
formatted `datetime.now()` timestamp. -/
structure Env where
  um : UserManager
  DEPARTMENTS : List (String × String)
  PRIORITIES : List (String × String)
  user : UserInfo
  date : String

/-- Conversation state plus draft data for one user. -/
structure BotState where
  conv : ConvState
  ud : UserData
deriving DecidableEq

/-- Modelled from the spec: `ORDER_TEMPLATE` lives in `messages.py`,
which is not under src/.  Per the spec, `OrderMessage` is "formatted
text combining OrderDraft fields, submitter identity, and a timestamp";
`confirm_order` fills it with `user.full_name`, `user.username` (or the
placeholder), the department label, product, quantity, the priority
label and the date. -/
def ORDER_TEMPLATE (user_name username department product quantity priority date : String) :
    String :=
  "Новая заявка на закупку\nОт: " ++ user_name ++ " (@" ++ username ++ ")" ++
    "\nОтдел: " ++ department ++ "\nТовар: " ++ product ++
    "\nКоличество: " ++ quantity ++ "\nПриоритет: " ++ priority ++
    "\nДата: " ++ date

/-- Modelled from the spec: the confirmation summary template of
`messages.py` (not under src/); `priority_selected` "synthesizes a
human-readable confirmation summary from the full draft". -/
def confirmation_text (department product quantity priority : String) : String :=
  "Подтвердите заявку:\nОтдел: " ++ department ++ "\nТовар: " ++ product ++
    "\nКоличество: " ++ quantity ++ "\nПриоритет: " ++ priority

/-! ## Conversation handlers -/

/-- Embedding of `Bot.order_command` (the `/order` entry point): denied
users are turned away before any draft state is touched; an
`order_in_progress` flag already set reports "already in progress" and
ends; otherwise the flag is set, the department keyboard is shown, and
the conversation enters `SELECTING_DEPARTMENT`. -/
def order_command (env : Env) (st : BotState) : BotState × List OutMsg :=
  if env.um.is_allowed env.user.id = false then
    (⟨.idle, st.ud⟩, [.toUser .access_denied])
  else if st.ud.order_in_progress = true then
    (⟨.idle, st.ud⟩, [.toUser .already_in_progress])
  else
    (⟨.selecting_department, { st.ud with order_in_progress := true }⟩,
      [.toUser .select_department])

/-- Embedding of `Bot.department_selected`: strips `dept_` from the
callback payload (Python `str.replace` removes every occurrence),
records the result as the draft department, and advances to
`ENTERING_PRODUCT`.  The payload value is not checked against
`DEPARTMENTS`. -/
def department_selected (st : BotState) (data : String) : BotState × List OutMsg :=
  let dept_id := strReplace data "dept_" ""
  (⟨.entering_product, { st.ud with department := some dept_id }⟩,
    [.toUser .enter_product])

/-- Embedding of `Bot.product_entered`: stores the trimmed message text
as the product and advances to `ENTERING_QUANTITY`. -/
def product_entered (st : BotState) (text : String) : BotState × List OutMsg :=
  (⟨.entering_quantity, { st.ud with product := some (strTrim text) }⟩,
    [.toUser .enter_quantity])

/-- Embedding of `Bot.quantity_entered`: stores the trimmed message
text as the quantity, shows the priority keyboard, and advances to
`SELECTING_PRIORITY`. -/
def quantity_entered (st : BotState) (text : String) : BotState × List OutMsg :=
  (⟨.selecting_priority, { st.ud with quantity := some (strTrim text) }⟩,
    [.toUser .select_priority])

/-- Embedding of `Bot.priority_selected`: records the stripped priority
key, then formats the confirmation summary from the draft.  The dict
lookups `DEPARTMENTS[...]`/`PRIORITIES[...]` and the draft-key accesses
raise `KeyError` when absent; in that case the handler aborts after the
priority was already recorded and the conversation state is left
unchanged (the framework keeps the current state when a handler
raises). -/
def priority_selected (env : Env) (st : BotState) (data : String) : BotState × List OutMsg :=
  let priority_key := strReplace data "priority_" ""
  let ud2 := { st.ud with priority := some priority_key }
  match ud2.department.bind (fun d => List.lookup d env.DEPARTMENTS),
      ud2.product, ud2.quantity, List.lookup priority_key env.PRIORITIES with
  | some dl, some p, some q, some pl =>
    (⟨.confirming_order, ud2⟩, [.toUser (.confirmation (confirmation_text dl p q pl))])
  | _, _, _, _ => (⟨st.conv, ud2⟩, [])

/-- The fan-out of `Bot._send_order_to_admins` as visible in one
handling step: one relayed message per identifier in
`get_admin_ids()` (per-recipient failures are caught inside the loop,
so every identifier is attempted). -/
def order_admin_messages (env : Env) (message : String) : List OutMsg :=
  (env.um.get_admin_ids).map (fun a => .toAdmin a message)

/-- Embedding of `Bot.confirm_order`: on payload `confirm_yes` the
order text is formatted from the draft and relayed to every
administrator, success is reported, the draft is cleared and the
conversation ends; on any other payload cancellation is reported, the
draft is cleared and the conversation ends.  In the confirm branch the
template's dict accesses raise `KeyError` when a draft key is absent or
a catalog lookup fails; the clear is then never reached and the
framework keeps the current state. -/
def confirm_order (env : Env) (st : BotState) (data : String) : BotState × List OutMsg :=
  if data = "confirm_yes" then
    match st.ud.department.bind (fun d => List.lookup d env.DEPARTMENTS),
        st.ud.product, st.ud.quantity,
        st.ud.priority.bind (fun k => List.lookup k env.PRIORITIES) with
    | some dl, some p, some q, some pl =>
      let order_message :=
        ORDER_TEMPLATE env.user.full_name (env.user.username.getD "не указан")
          dl p q pl env.date
      (⟨.idle, UserData.empty⟩,
        order_admin_messages env order_message ++ [.toUser .order_success])
    | _, _, _, _ => (st, [])
  else
    (⟨.idle, UserData.empty⟩, [.toUser .order_cancelled])

/-- Embedding of `Bot.cancel_command` (the conversation fallback for
`/cancel`): a disallowed user is turned away (ending the conversation
without touching the draft); without the `order_in_progress` flag it
reports "nothing to cancel"; otherwise it clears the draft, reports
cancellation and ends the conversation. -/
def cancel_command (env : Env) (st : BotState) : BotState × List OutMsg :=
  if env.um.is_allowed env.user.id = false then
    (⟨.idle, st.ud⟩, [.toUser .access_denied])
  else if st.ud.order_in_progress = false then
    (⟨.idle, st.ud⟩, [.toUser .cancel_not_available])
  else
    (⟨.idle, UserData.empty⟩, [.toUser .cancel_success])

/-- Embedding of `Bot.order_in_progress` (the second `/order`
registration, reached while a conversation is active): sends
"already in progress" and changes nothing. -/
def order_in_progress_handler (st : BotState) : BotState × List OutMsg :=
  (st, [.toUser .already_in_progress])

/-- Embedding of `Bot.cancel_not_available` (the second `/cancel`
registration, reached with no active conversation): sends "nothing to
cancel" and changes nothing. -/
def cancel_not_available_handler (st : BotState) : BotState × List OutMsg :=
  (st, [.toUser .cancel_not_available])

/-- The inbound events the embedded handlers react to: the `/order`
command, the `/cancel` command, a button-selection callback with its
payload, and a plain (non-command) text message. -/
inductive Event where
  | cmd_order
  | cmd_cancel
  | callback (data : String)
  | text (s : String)

/-- The dispatch of one inbound event, following `_setup_handlers` and
the framework's handler resolution: with no active conversation,
`/order` hits the conversation entry point and `/cancel` falls through
to `cancel_not_available`, while callbacks and plain text match no
handler; with an active conversation, the current state's handler is
tried first (callback patterns `^dept_`, `^priority_`, `^confirm_`;
text handlers only in the two text states), then the `/cancel`
fallback; `/order` matches neither and falls through to
`order_in_progress`.  An event matching no handler leaves everything
unchanged. -/
def handleEvent (env : Env) (st : BotState) : Event → BotState × List OutMsg
  | .cmd_order =>
    if st.conv = .idle then order_command env st
    else order_in_progress_handler st
  | .cmd_cancel =>
    if st.conv = .idle then cancel_not_available_handler st
    else cancel_command env st
  | .callback data =>
    match st.conv with
    | .selecting_department =>
      if strStartsWith data "dept_" then department_selected st data else (st, [])
    | .selecting_priority =>
      if strStartsWith data "priority_" then priority_selected env st data else (st, [])
    | .confirming_order =>
      if strStartsWith data "confirm_" then confirm_order env st data else (st, [])
    | _ => (st, [])
  | .text s =>
    match st.conv with
    | .entering_product => product_entered st s
    | .entering_quantity => quantity_entered st s
    | _ => (st, [])

/-- Run a list of events from a state, collecting every outbound
message in order. -/
def runEvents (env : Env) (st : BotState) : List Event → BotState × List OutMsg
  | [] => (st, [])
  | e :: es =>
    let r := handleEvent env st e
    let rest := runEvents env r.1 es
    (rest.1, r.2 ++ rest.2)

/-! ## Delivery layer -/

/-- What one call of the transport (`bot.send_message`) signals for one
attempt: success, `RetryAfter` with its mandated delay, a
`TimedOut`/`NetworkError`, or any other exception. -/
inductive TransportResult where
  | ok
  | retryAfter (secs : Nat)
  | netError
  | otherError
deriving DecidableEq

/-- How `_send_message_with_retry` ends: the message was sent on a given
attempt, the `for` loop ran out of attempts without a send or a raise
(the function then returns `None`), or an exception propagated to the
caller. -/
inductive SendResult where
  | sent (attempt : Nat)
  | noResult
  | raised
deriving DecidableEq

/-- The body of `_send_message_with_retry`'s `for attempt in
range(max_retries)` loop, at attempt index `i` with `remaining` loop
iterations left (`remaining = max_retries - i` at every call): each
iteration calls the transport once; `RetryAfter` sleeps the mandated
delay and moves to the next iteration (consuming the loop index
exactly like any other iteration); a network error sleeps `2 ^ attempt`
and moves on unless `attempt = max_retries - 1`, in which case it
re-raises; any other exception re-raises; falling off the loop yields
no result (the function returns `None`).  The second component collects
the sleeps performed, in seconds. -/
def send_message_with_retry_loop (transport : Nat → TransportResult) (max_retries : Nat) :
    Nat → Nat → SendResult × List Nat
  | 0, _ => (.noResult, [])
  | remaining + 1, i =>
    match transport i with
    | .ok => (.sent i, [])
    | .retryAfter s =>
      let r := send_message_with_retry_loop transport max_retries remaining (i + 1)
      (r.1, s :: r.2)
    | .netError =>
      if i < max_retries - 1 then
        let r := send_message_with_retry_loop transport max_retries remaining (i + 1)
        (r.1, 2 ^ i :: r.2)
      else
        (.raised, [])
    | .otherError => (.raised, [])

/-- Embedding of `Bot._send_message_with_retry` (its default budget is
`max_retries = 3`), abstracted over the transport's per-attempt
outcome. -/
def send_message_with_retry (transport : Nat → TransportResult) (max_retries : Nat) :
    SendResult × List Nat :=
  send_message_with_retry_loop transport max_retries max_retries 0

/-- Embedding of `Bot._send_order_to_admins`, one admin at a time in
the `Except` monad (the channel a raised exception would propagate on):
each iteration runs the per-recipient send under `try`/`except`, so a
failure is recorded and the loop moves to the next administrator.  The
result pairs each administrator with whether its send succeeded. -/
def send_order_to_admins (send : Int → Except String Unit) :
    List Int → Except String (List (Int × Bool))
  | [] => pure []
  | a :: rest => do
    let r ← tryCatch (do let _ ← send a; pure true) (fun _ => pure false)
    let rs ← send_order_to_admins send rest
    pure ((a, r) :: rs)

/-! ## Helper lemmas -/

/-- Substring containment, stated on the character sequence. -/
def contains_string (s pat : String) : Prop :=
  ∃ l r : List Char, s.data = l ++ pat.data ++ r

lemma contains_string_append_self (s pat : String) : contains_string (s ++ pat) pat :=
  ⟨s.data, [], by simp [String.data_append]⟩

lemma contains_string_append_left (s t pat : String) (h : contains_string s pat) :
    contains_string (s ++ t) pat := by
  obtain ⟨l, r, hs⟩ := h
  exact ⟨l, r ++ t.data, by simp [String.data_append, hs]⟩

lemma mem_collect_ids_aux (keys : List String) (acc : List Int) (x : Int) :
    x ∈ keys.foldl
        (fun acc k =>
          match parse_user_id k with
          | some i => acc.insert i
          | none => acc)
        acc ↔
      x ∈ acc ∨ ∃ k ∈ keys, parse_user_id k = some x := by
  induction keys generalizing acc with
  | nil => simp
  | cons k ks ih =>
    rw [List.foldl_cons, ih]
    cases h : parse_user_id k with
    | none =>
      simp only [h, List.mem_cons]
      constructor
      · rintro (hx | ⟨k2, hk2, hp⟩)
        · exact Or.inl hx
        · exact Or.inr ⟨k2, Or.inr hk2, hp⟩
      · rintro (hx | ⟨k2, hk2 | hk2, hp⟩)
        · exact Or.inl hx
        · rw [hk2] at hp; rw [hp] at h; cases h
        · exact Or.inr ⟨k2, hk2, hp⟩
    | some i =>
      simp only [h, List.mem_insert_iff, List.mem_cons]
      constructor
      · rintro (⟨hx | hx⟩ | ⟨k2, hk2, hp⟩)
        · exact Or.inr ⟨k, Or.inl rfl, by rw [h, hx]⟩
        · exact Or.inl hx
        · exact Or.inr ⟨k2, Or.inr hk2, hp⟩
      · rintro (hx | ⟨k2, hk2 | hk2, hp⟩)
        · exact Or.inl (Or.inr hx)
        · rw [hk2] at hp; rw [hp] at h
          exact Or.inl (Or.inl (Option.some_injective _ h))
        · exact Or.inr ⟨k2, hk2, hp⟩

lemma mem_collect_ids (keys : List String) (x : Int) :
    x ∈ collect_ids keys ↔ ∃ k ∈ keys, parse_user_id k = some x := by
  rw [collect_ids, mem_collect_ids_aux]
  simp

lemma collect_ids_nodup_aux (keys : List String) (acc : List Int) (hacc : acc.Nodup) :
    (keys.foldl
        (fun acc k =>
          match parse_user_id k with
          | some i => acc.insert i
          | none => acc)
        acc).Nodup := by
  induction keys generalizing acc with
  | nil => exact hacc
  | cons k ks ih =>
    rw [List.foldl_cons]
    cases h : parse_user_id k with
    | none => simp only [h]; exact ih acc hacc
    | some i => simp only [h]; exact ih (acc.insert i) (List.Nodup.insert hacc)

/-- The set built from one section is duplicate-free. -/
lemma collect_ids_nodup (keys : List String) : (collect_ids keys).Nodup :=
  collect_ids_nodup_aux keys [] List.nodup_nil

/-- Both sets of every successfully loaded registry are
duplicate-free. -/
lemma load_users_nodup (cfg : ConfigInput) (m : UserManager)
    (hok : load_users cfg = .ok m) : m.admins.Nodup ∧ m.allowed_users.Nodup := by
  cases cfg with
  | readError => cases hok
  | sections adminKeys userKeys =>
    rw [load_users] at hok
    by_cases hne : collect_ids (adminKeys.getD []) = []
    · rw [if_pos hne] at hok
      cases hok
    · rw [if_neg hne] at hok
      cases hok
      exact ⟨collect_ids_nodup _, List.Nodup.union _ (collect_ids_nodup _)⟩

/-! ## Claims about the access registry -/

/-- Claim C6: when a reload's `_load_users` fails (a configuration read
error or zero valid administrator identifiers), the previously loaded
sets remain in effect — `is_admin` and `is_allowed` answer exactly as
before the reload for every identifier — and the error is surfaced
(re-raised) to the caller of `reload_users` rather than swallowed. -/
theorem C6_reload_failure_keeps_previous_sets (m : UserManager) (cfg : ConfigInput)
    (e : String) (hfail : load_users cfg = .error e) :
    manager_after_reload m cfg = m ∧
      (∀ user_id, (manager_after_reload m cfg).is_admin user_id = m.is_admin user_id ∧
        (manager_after_reload m cfg).is_allowed user_id = m.is_allowed user_id) ∧
      reload_users cfg = .error e := by
  have hm : manager_after_reload m cfg = m := by
    unfold manager_after_reload
    rw [hfail]
  exact ⟨hm, fun user_id => by rw [hm]; exact ⟨rfl, rfl⟩, by rw [reload_users, hfail]⟩

/-- Witness for C6 at a concrete failing configuration: an ADMINS
section with zero valid identifiers. -/
theorem C6_reload_failure_keeps_previous_sets_witness :
    load_users (.sections (some ["oops"]) none) = .error "no admins" ∧
      (manager_after_reload ⟨[1], [1, 2]⟩ (.sections (some ["oops"]) none) = ⟨[1], [1, 2]⟩ ∧
        (∀ user_id,
          (manager_after_reload ⟨[1], [1, 2]⟩ (.sections (some ["oops"]) none)).is_admin user_id =
            (⟨[1], [1, 2]⟩ : UserManager).is_admin user_id ∧
          (manager_after_reload ⟨[1], [1, 2]⟩ (.sections (some ["oops"]) none)).is_allowed user_id =
            (⟨[1], [1, 2]⟩ : UserManager).is_allowed user_id) ∧
        reload_users (.sections (some ["oops"]) none) = .error "no admins") :=
  ⟨rfl, C6_reload_failure_keeps_previous_sets ⟨[1], [1, 2]⟩ (.sections (some ["oops"]) none)
    "no admins" rfl⟩

/-- Claim C7: after every successful load, the administrator set is a
subset of the allowed-user set; every identifier parsed from the
administrators section answers `is_allowed = true`, with no assumption
on the allowed-users section. -/
theorem C7_admins_subset_allowed (adminKeys : List String) (userKeys : Option (List String))
    (m : UserManager) (hok : load_users (.sections (some adminKeys) userKeys) = .ok m) :
    m.admins ⊆ m.allowed_users ∧
      (∀ k ∈ adminKeys, ∀ user_id, parse_user_id k = some user_id →
        m.is_allowed user_id = true) := by
  rw [load_users] at hok
  simp only [Option.getD] at hok
  by_cases hne : collect_ids adminKeys = []
  · rw [if_pos hne] at hok
    cases hok
  · rw [if_neg hne] at hok
    have hm : m = ⟨collect_ids adminKeys,
        (collect_ids (userKeys.getD [])).union (collect_ids adminKeys)⟩ := by
      cases hok
      rfl
    subst hm
    constructor
    · intro x hx
      exact List.mem_union_iff.mpr (Or.inr hx)
    · intro k hk user_id hp
      have hx : user_id ∈ collect_ids adminKeys := (mem_collect_ids _ _).mpr ⟨k, hk, hp⟩
      simp only [UserManager.is_allowed, decide_eq_true_eq]
      exact List.mem_union_iff.mpr (Or.inr hx)

/-- Witness for C7: an administrator identifier absent from the USERS
section is still allowed after load. -/
theorem C7_admins_subset_allowed_witness :
    load_users (.sections (some ["7"]) (some ["8"])) = .ok ⟨[7], [8, 7]⟩ ∧
      ((⟨[7], [8, 7]⟩ : UserManager).admins ⊆ (⟨[7], [8, 7]⟩ : UserManager).allowed_users ∧
        (∀ k ∈ ["7"], ∀ user_id, parse_user_id k = some user_id →
          (⟨[7], [8, 7]⟩ : UserManager).is_allowed user_id = true)) :=
  ⟨rfl, C7_admins_subset_allowed ["7"] (some ["8"]) ⟨[7], [8, 7]⟩ rfl⟩

/-! ## Claims about the conversation state machine -/

lemma leadMatch_self_append (l t : List Char) : leadMatch l (l ++ t) = true := by
  induction l with
  | nil => rfl
  | cons c cs ih => simp [leadMatch, ih]

lemma strStartsWith_append (p s : String) : strStartsWith (p ++ s) p = true := by
  rw [strStartsWith, String.data_append]
  exact leadMatch_self_append p.data s.data

/-- A loaded registry with administrator `1` and allowed users `1, 2`;
used as a concrete environment by witnesses. -/
def sample_um : UserManager :=
  { admins := [1], allowed_users := [1, 2] }

/-- Concrete environment whose submitting user (`2`) is in the allowed
set. -/
def sample_env : Env :=
  { um := sample_um, DEPARTMENTS := [("it", "IT")], PRIORITIES := [("high", "High")],
    user := { id := 2, full_name := "Ivan Petrov", username := some "ivan" },
    date := "01.01.2025 12:00" }

/-- Concrete environment whose submitting user (`5`) is not in the
allowed set. -/
def denied_env : Env :=
  { um := sample_um, DEPARTMENTS := [("it", "IT")], PRIORITIES := [("high", "High")],
    user := { id := 5, full_name := "Eve", username := none },
    date := "01.01.2025 12:00" }

/-- A draft mid-conversation at `ENTERING_QUANTITY` (department and
product already recorded). -/
def quantity_stage_state : BotState :=
  ⟨.entering_quantity,
    { order_in_progress := true, department := some "it", product := some "Mouse",
      quantity := none, priority := none }⟩

/-- Counterexample to claim C3: in `SELECTING_DEPARTMENT`, the payload
`dept_warehouse` — whose value `warehouse` is not a static department
identifier of the environment's catalog — is nevertheless recorded as
the draft's department, and the machine advances to
`ENTERING_PRODUCT`.  The handler never compares the payload value
against `DEPARTMENTS`. -/
theorem C3_counterexample :
    (handleEvent sample_env
        ⟨.selecting_department, { UserData.empty with order_in_progress := true }⟩
        (.callback "dept_warehouse")).1.ud.department = some "warehouse" ∧
      (handleEvent sample_env
          ⟨.selecting_department, { UserData.empty with order_in_progress := true }⟩
          (.callback "dept_warehouse")).1.conv = ConvState.entering_product ∧
      List.lookup "warehouse" sample_env.DEPARTMENTS = none := by
  exact ⟨by decide, by decide, by decide⟩

/-- Claim C3 as amended: in `SELECTING_DEPARTMENT` a selection payload
is accepted whenever it starts with `dept_` — the remaining value is
recorded as the draft's department (with every `dept_` occurrence
removed) whether or not it is a static department identifier — and a
payload without that prefix is ignored by the state. -/
theorem C3_dept_prefix_accepted (env : Env) (st : BotState) (data : String)
    (hst : st.conv = ConvState.selecting_department) :
    (strStartsWith data "dept_" = true →
      handleEvent env st (.callback data) =
        (⟨.entering_product, { st.ud with department := some (strReplace data "dept_" "") }⟩,
          [.toUser .enter_product])) ∧
      (strStartsWith data "dept_" = false →
        handleEvent env st (.callback data) = (st, [])) := by
  obtain ⟨cv, ud⟩ := st
  simp only at hst
  subst hst
  constructor
  · intro h
    simp [handleEvent, h, department_selected]
  · intro h
    simp [handleEvent, h]

/-- Witness for C3 (amended) at a payload carrying a catalog
identifier. -/
theorem C3_dept_prefix_accepted_witness :
    handleEvent sample_env
        ⟨.selecting_department, { UserData.empty with order_in_progress := true }⟩
        (.callback "dept_it") =
      (⟨.entering_product,
          { UserData.empty with order_in_progress := true, department := some "it" }⟩,
        [.toUser .enter_product]) := by
  have h := (C3_dept_prefix_accepted sample_env
    ⟨.selecting_department, { UserData.empty with order_in_progress := true }⟩
    "dept_it" rfl).1 (by decide)
  rw [h]
  decide

/-- Counterexample to claim C4: a user whose permission was revoked
mid-conversation (present in no allowed set) still has an active
conversation at `ENTERING_QUANTITY`; the explicit cancellation command
then reports access-denied — not cancellation — and the draft is not
discarded. -/
theorem C4_counterexample :
    handleEvent denied_env quantity_stage_state .cmd_cancel =
        (⟨.idle, quantity_stage_state.ud⟩, [.toUser .access_denied]) ∧
      quantity_stage_state.ud ≠ UserData.empty ∧
      Msg.access_denied ≠ Msg.cancel_success := by
  exact ⟨by decide, by decide, by decide⟩

/-- Claim C4 as amended: for every user in the allowed set with an
active conversation in any non-terminal state, the cancellation command
discards the draft, reports cancellation and transitions to terminal,
after which a start-order command begins a fresh empty draft; outside
an active conversation the command reports "nothing to cancel" and has
no side effects.  (A user no longer in the allowed set instead receives
access-denied and the draft data is left in place, as the
counterexample shows.) -/
theorem C4_cancel_discards_draft (env : Env) (st : BotState)
    (hallow : env.um.is_allowed env.user.id = true)
    (hactive : st.conv ≠ ConvState.idle)
    (hflag : st.ud.order_in_progress = true) :
    handleEvent env st .cmd_cancel = (⟨.idle, UserData.empty⟩, [.toUser .cancel_success]) ∧
      handleEvent env ⟨.idle, UserData.empty⟩ .cmd_order =
        (⟨.selecting_department, { UserData.empty with order_in_progress := true }⟩,
          [.toUser .select_department]) ∧
      (∀ env2 st2, st2.conv = ConvState.idle →
        handleEvent env2 st2 .cmd_cancel = (st2, [.toUser .cancel_not_available])) := by
  refine ⟨?_, ?_, ?_⟩
  · obtain ⟨cv, ud⟩ := st
    simp only at hactive hflag
    cases cv
    · exact absurd rfl hactive
    all_goals simp [handleEvent, cancel_command, hallow, hflag]
  · simp [handleEvent, order_command, hallow, UserData.empty]
  · intro env2 st2 h2
    obtain ⟨cv2, ud2⟩ := st2
    simp only at h2
    subst h2
    rfl

/-- Witness for C4 (amended): an allowed user cancels at
`ENTERING_QUANTITY`. -/
theorem C4_cancel_discards_draft_witness :
    handleEvent sample_env quantity_stage_state .cmd_cancel =
        (⟨.idle, UserData.empty⟩, [.toUser .cancel_success]) ∧
      handleEvent sample_env ⟨.idle, UserData.empty⟩ .cmd_order =
        (⟨.selecting_department, { UserData.empty with order_in_progress := true }⟩,
          [.toUser .select_department]) :=
  ⟨(C4_cancel_discards_draft sample_env quantity_stage_state (by decide) (by decide)
      (by decide)).1,
    (C4_cancel_discards_draft sample_env quantity_stage_state (by decide) (by decide)
      (by decide)).2.1⟩

/-- Claim C8: a user outside the allowed set who issues the start-order
command is turned away with access-denied and no draft is created (the
in-progress marker stays unset and every field stays absent); with no
active conversation, subsequent selection callbacks and text messages
match no handler and change nothing. -/
theorem C8_denied_order_creates_no_draft (env : Env)
    (hden : env.um.is_allowed env.user.id = false) :
    handleEvent env ⟨.idle, UserData.empty⟩ .cmd_order =
        (⟨.idle, UserData.empty⟩, [.toUser .access_denied]) ∧
      (∀ data, handleEvent env ⟨.idle, UserData.empty⟩ (.callback data) =
        (⟨.idle, UserData.empty⟩, [])) ∧
      (∀ s, handleEvent env ⟨.idle, UserData.empty⟩ (.text s) =
        (⟨.idle, UserData.empty⟩, [])) := by
  refine ⟨?_, ?_, ?_⟩
  · simp [handleEvent, order_command, hden]
  · intro data; rfl
  · intro s; rfl

/-- Witness for C8: the disallowed user `5` issues `/order`, then a
department callback and a text; nothing changes. -/
theorem C8_denied_order_creates_no_draft_witness :
    handleEvent denied_env ⟨.idle, UserData.empty⟩ .cmd_order =
        (⟨.idle, UserData.empty⟩, [.toUser .access_denied]) ∧
      handleEvent denied_env ⟨.idle, UserData.empty⟩ (.callback "dept_it") =
        (⟨.idle, UserData.empty⟩, []) ∧
      handleEvent denied_env ⟨.idle, UserData.empty⟩ (.text "Mouse") =
        (⟨.idle, UserData.empty⟩, []) :=
  ⟨(C8_denied_order_creates_no_draft denied_env (by decide)).1,
    (C8_denied_order_creates_no_draft denied_env (by decide)).2.1 "dept_it",
    (C8_denied_order_creates_no_draft denied_env (by decide)).2.2 "Mouse"⟩

/-- Claim C9: with a conversation already active, a second `/order`
command reaches the secondary `/order` handler, which only reports
"already in progress": the conversation state and every draft field are
exactly as before, no second draft is created and no field is reset.
The same report results when the `order_in_progress` flag is set while
no conversation is active (the entry handler's own guard). -/
theorem C9_second_order_leaves_state_unchanged (env : Env) (st : BotState)
    (hactive : st.conv ≠ ConvState.idle) :
    handleEvent env st .cmd_order = (st, [.toUser .already_in_progress]) ∧
      (∀ st2 : BotState, st2.conv = ConvState.idle → st2.ud.order_in_progress = true →
        env.um.is_allowed env.user.id = true →
        handleEvent env st2 .cmd_order = (st2, [.toUser .already_in_progress])) := by
  constructor
  · obtain ⟨cv, ud⟩ := st
    simp only at hactive
    cases cv
    · exact absurd rfl hactive
    all_goals rfl
  · intro st2 h2 hflag hallow
    obtain ⟨cv2, ud2⟩ := st2
    simp only at h2 hflag
    subst h2
    simp [handleEvent, order_command, hallow, hflag]

/-- Witness for C9: a second `/order` mid-conversation at
`ENTERING_QUANTITY`. -/
theorem C9_second_order_leaves_state_unchanged_witness :
    handleEvent sample_env quantity_stage_state .cmd_order =
      (quantity_stage_state, [.toUser .already_in_progress]) :=
  (C9_second_order_leaves_state_unchanged sample_env quantity_stage_state (by decide)).1

/-- Claim C10: in `CONFIRMING_ORDER`, every payload `confirm_<x>` other
than `confirm_yes` takes the rejection branch — cancellation is
reported, nothing is relayed to any administrator, and the draft is
cleared — and the `confirm_yes` branch (on a draft whose fields are
present and resolve in the catalogs) likewise leaves the per-user draft
data empty. -/
theorem C10_nonyes_payload_rejects (env : Env) (st : BotState)
    (hst : st.conv = ConvState.confirming_order) :
    (∀ x, "confirm_" ++ x ≠ "confirm_yes" →
      handleEvent env st (.callback ("confirm_" ++ x)) =
        (⟨.idle, UserData.empty⟩, [.toUser .order_cancelled])) ∧
      (∀ dl p q pl,
        st.ud.department.bind (fun d => List.lookup d env.DEPARTMENTS) = some dl →
        st.ud.product = some p → st.ud.quantity = some q →
        st.ud.priority.bind (fun k => List.lookup k env.PRIORITIES) = some pl →
        (handleEvent env st (.callback "confirm_yes")).1.ud = UserData.empty) := by
  obtain ⟨cv, ud⟩ := st
  simp only at hst
  subst hst
  constructor
  · intro x hne
    simp [handleEvent, strStartsWith_append, confirm_order, hne]
  · intro dl p q pl hd hp hq hpl
    simp only at hd hp hq hpl
    simp [handleEvent, confirm_order, hd, hp, hq, hpl,
      show strStartsWith "confirm_yes" "confirm_" = true from by decide]

/-- Witness for C10: the payload `confirm_no` rejects and clears; the
payload `confirm_yes` on a complete valid draft also leaves the draft
empty. -/
theorem C10_nonyes_payload_rejects_witness :
    handleEvent sample_env
        ⟨.confirming_order,
          { order_in_progress := true, department := some "it", product := some "Mouse",
            quantity := some "10", priority := some "high" }⟩
        (.callback ("confirm_" ++ "no")) =
      (⟨.idle, UserData.empty⟩, [.toUser .order_cancelled]) ∧
    (handleEvent sample_env
        ⟨.confirming_order,
          { order_in_progress := true, department := some "it", product := some "Mouse",
            quantity := some "10", priority := some "high" }⟩
        (.callback "confirm_yes")).1.ud = UserData.empty :=
  ⟨(C10_nonyes_payload_rejects sample_env
      ⟨.confirming_order,
        { order_in_progress := true, department := some "it", product := some "Mouse",
          quantity := some "10", priority := some "high" }⟩ rfl).1 "no" (by decide),
    (C10_nonyes_payload_rejects sample_env
      ⟨.confirming_order,
        { order_in_progress := true, department := some "it", product := some "Mouse",
          quantity := some "10", priority := some "high" }⟩ rfl).2 "IT" "Mouse" "10" "High"
      (by decide) rfl rfl (by decide)⟩

/-! ## Claims about the delivery layer -/

/-- Counterexample to claim C2: a transport that rate-limits the first
three attempts and would succeed on the fourth.  Under the claim
(rate-limit retries unbounded, not charged to the 3-attempt budget) the
send would eventually succeed; in the code each `RetryAfter` `continue`
advances the same `for attempt in range(max_retries)` loop, so the
three rate limits exhaust the budget and the function falls off the
loop, returning `None` — the message is never sent (and the fourth,
successful attempt is never made). -/
theorem C2_counterexample :
    send_message_with_retry (fun i => if i < 3 then .retryAfter 1 else .ok) 3 =
        (SendResult.noResult, [1, 1, 1]) ∧
      SendResult.noResult ≠ SendResult.sent 3 :=
  ⟨by decide, by decide⟩

/-- Claim C2 as amended: a rate-limit signal at an attempt with budget
remaining causes a wait of the transport-specified back-off duration
followed by a retry of the same recipient, but the retry consumes one
unit of the shared `max_retries` budget exactly like any other
iteration; in particular a transport that rate-limits every attempt
ends the loop after the budget with no send and no exception (the
function returns `None`). -/
theorem C2_rate_limit_consumes_budget (t : Nat → TransportResult) :
    (∀ m r i s, t i = .retryAfter s →
      send_message_with_retry_loop t m (r + 1) i =
        ((send_message_with_retry_loop t m r (i + 1)).1,
          s :: (send_message_with_retry_loop t m r (i + 1)).2)) ∧
      (∀ m r i, (∀ j, ∃ s2, t j = .retryAfter s2) →
        (send_message_with_retry_loop t m r i).1 = SendResult.noResult) := by
  constructor
  · intro m r i s h
    simp [send_message_with_retry_loop, h]
  · intro m r
    induction r with
    | zero => intro i _; rfl
    | succ r ih =>
      intro i hall
      obtain ⟨s2, hs2⟩ := hall i
      simp [send_message_with_retry_loop, hs2, ih (i + 1) hall]

/-- Witness for C2 (amended): a transport that always rate-limits with
a 2-second back-off. -/
theorem C2_rate_limit_consumes_budget_witness :
    send_message_with_retry_loop (fun _ => .retryAfter 2) 3 3 0 =
        ((send_message_with_retry_loop (fun _ => .retryAfter 2) 3 2 1).1,
          2 :: (send_message_with_retry_loop (fun _ => .retryAfter 2) 3 2 1).2) ∧
      (send_message_with_retry (fun _ => .retryAfter 2) 3).1 = SendResult.noResult :=
  ⟨(C2_rate_limit_consumes_budget (fun _ => .retryAfter 2)).1 3 2 0 2 rfl,
    (C2_rate_limit_consumes_budget (fun _ => .retryAfter 2)).2 3 3 0 (fun _ => ⟨2, rfl⟩)⟩

/-- Claim C5: for every admin list and every pattern of per-recipient
outcomes (the abstract `send` may fail for any subset of recipients,
covering permanent failures and exhausted retry budgets, both of which
surface as a raise of the per-recipient send), the fan-out never ends
in the error branch — nothing propagates to the caller — and every
administrator in the list is attempted, in order, regardless of earlier
failures. -/
theorem C5_deliver_never_raises (send : Int → Except String Unit) (admins : List Int) :
    ∃ results, send_order_to_admins send admins = .ok results ∧
      results.map Prod.fst = admins := by
  induction admins with
  | nil => exact ⟨[], rfl, rfl⟩
  | cons a rest ih =>
    obtain ⟨rs, hok, hmap⟩ := ih
    cases hsend : send a with
    | ok u =>
      refine ⟨(a, true) :: rs, ?_, by simp [hmap]⟩
      simp [send_order_to_admins, hsend, hok, tryCatch, tryCatchThe,
        MonadExceptOf.tryCatch, Except.tryCatch, Bind.bind, Except.bind, pure, Except.pure]
    | error e =>
      refine ⟨(a, false) :: rs, ?_, by simp [hmap]⟩
      simp [send_order_to_admins, hsend, hok, tryCatch, tryCatchThe,
        MonadExceptOf.tryCatch, Except.tryCatch, Bind.bind, Except.bind, pure, Except.pure]

/-! ## Claim C1: the complete happy-path conversation -/

/-- The event sequence of one completed conversation: `/order`, a
department selection, the product text, the quantity text, a priority
selection, and the confirm button. -/
def c1_events (D P prod qty : String) : List Event :=
  [Event.cmd_order, .callback ("dept_" ++ D), .text prod, .text qty,
    .callback ("priority_" ++ P), .callback "confirm_yes"]

/-- The order text `confirm_order` relays: the template filled with the
submitter's identity, the resolved labels, the entered texts and the
timestamp. -/
def order_message_of (env : Env) (dl prod qty pl : String) : String :=
  ORDER_TEMPLATE env.user.full_name (env.user.username.getD "не указан") dl prod qty pl
    env.date

/-- Claim C1: an allowed user who completes all five steps — department
`D` (with label `dl`), product text, quantity text, priority `P` (with
label `pl`) — and confirms, produces exactly the expected reply
sequence; the relayed order message is attempted exactly once per
administrator identifier; the message contains the department label,
the product text, the quantity text, the priority label, the
submitter's identity and the timestamp; and the per-user draft is empty
afterwards.  The two `strReplace` hypotheses pin down the payload
round-trip (they hold whenever the catalog identifier does not itself
contain the payload prefix), and the two `strTrim` hypotheses say the
entered texts carry no surrounding whitespace, so that "contains the
product/quantity text" is about the text as entered. -/
theorem C1_full_flow (env : Env) (D dl P pl prod qty : String)
    (hallow : env.um.is_allowed env.user.id = true)
    (hnodup : env.um.admins.Nodup)
    (hD : List.lookup D env.DEPARTMENTS = some dl)
    (hP : List.lookup P env.PRIORITIES = some pl)
    (hDrep : strReplace ("dept_" ++ D) "dept_" "" = D)
    (hPrep : strReplace ("priority_" ++ P) "priority_" "" = P)
    (hprod : strTrim prod = prod)
    (hqty : strTrim qty = qty) :
    runEvents env ⟨.idle, UserData.empty⟩ (c1_events D P prod qty) =
      (⟨.idle, UserData.empty⟩,
        [.toUser .select_department, .toUser .enter_product, .toUser .enter_quantity,
          .toUser .select_priority,
          .toUser (.confirmation (confirmation_text dl prod qty pl))] ++
          order_admin_messages env (order_message_of env dl prod qty pl) ++
          [.toUser .order_success]) ∧
      (∀ a ∈ env.um.admins,
        (runEvents env ⟨.idle, UserData.empty⟩ (c1_events D P prod qty)).2.count
          (OutMsg.toAdmin a (order_message_of env dl prod qty pl)) = 1) ∧
      contains_string (order_message_of env dl prod qty pl) dl ∧
      contains_string (order_message_of env dl prod qty pl) prod ∧
      contains_string (order_message_of env dl prod qty pl) qty ∧
      contains_string (order_message_of env dl prod qty pl) pl ∧
      contains_string (order_message_of env dl prod qty pl) env.user.full_name ∧
      contains_string (order_message_of env dl prod qty pl) env.date := by
  have hc : strStartsWith "confirm_yes" "confirm_" = true := by decide
  have hrun : runEvents env ⟨.idle, UserData.empty⟩ (c1_events D P prod qty) =
      (⟨.idle, UserData.empty⟩,
        [.toUser .select_department, .toUser .enter_product, .toUser .enter_quantity,
          .toUser .select_priority,
          .toUser (.confirmation (confirmation_text dl prod qty pl))] ++
          order_admin_messages env (order_message_of env dl prod qty pl) ++
          [.toUser .order_success]) := by
    simp [c1_events, runEvents, handleEvent, order_command, department_selected,
      product_entered, quantity_entered, priority_selected, confirm_order,
      order_message_of, UserData.empty, hallow, hD, hP, hDrep, hPrep, hprod, hqty, hc,
      strStartsWith_append]
  have hinj : Function.Injective
      (fun x : Int => OutMsg.toAdmin x (order_message_of env dl prod qty pl)) := by
    intro x y hxy
    injection hxy with h1 h2
  refine ⟨hrun, ?_, ?_, ?_, ?_, ?_, ?_, ?_⟩
  · intro a ha
    rw [hrun]
    simp only [order_admin_messages, UserManager.get_admin_ids]
    rw [List.count_append, List.count_append]
    rw [List.count_map_of_injective env.um.admins _ hinj a]
    rw [List.count_eq_one_of_mem hnodup ha]
    simp
  all_goals
    simp only [order_message_of, ORDER_TEMPLATE]
    repeat
      first
        | exact contains_string_append_self _ _
        | apply contains_string_append_left

/-- Witness for C1: the allowed user `2` completes the flow for
department `it`, product `Mouse`, quantity `10`, priority `high`
against the single-administrator registry. -/
theorem C1_full_flow_witness :
    runEvents sample_env ⟨.idle, UserData.empty⟩ (c1_events "it" "high" "Mouse" "10") =
      (⟨.idle, UserData.empty⟩,
        [.toUser .select_department, .toUser .enter_product, .toUser .enter_quantity,
          .toUser .select_priority,
          .toUser (.confirmation (confirmation_text "IT" "Mouse" "10" "High"))] ++
          order_admin_messages sample_env (order_message_of sample_env "IT" "Mouse" "10" "High") ++
          [.toUser .order_success]) ∧
      (∀ a ∈ sample_env.um.admins,
        (runEvents sample_env ⟨.idle, UserData.empty⟩ (c1_events "it" "high" "Mouse" "10")).2.count
          (OutMsg.toAdmin a (order_message_of sample_env "IT" "Mouse" "10" "High")) = 1) ∧
      contains_string (order_message_of sample_env "IT" "Mouse" "10" "High") "IT" ∧
      contains_string (order_message_of sample_env "IT" "Mouse" "10" "High") "Mouse" ∧
      contains_string (order_message_of sample_env "IT" "Mouse" "10" "High") "10" ∧
      contains_string (order_message_of sample_env "IT" "Mouse" "10" "High") "High" ∧
      contains_string (order_message_of sample_env "IT" "Mouse" "10" "High")
        sample_env.user.full_name ∧
      contains_string (order_message_of sample_env "IT" "Mouse" "10" "High")
        sample_env.date :=
  C1_full_flow sample_env "it" "IT" "high" "High" "Mouse" "10" (by decide) (by decide)
    (by decide) (by decide) (by decide) (by decide) (by decide) (by decide)

end ProcurementBot
